import Mathlib

/-!
Verification of the formula expression engine in
`src/backend/app/formula_engine.py` (class `FormulaEngine`, module-level
tables `SAFE_OPERATORS` / `SAFE_FUNCTIONS`, and the batch orchestrator
`compute_all_formulas`).

Modelling conventions:
* Python numbers (int/float) are modelled by `ℚ`; floating-point rounding is
  abstracted away.  Where a CPython math function returns an irrational
  float on its legal domain (`math.log`, `math.exp`, fractional powers), the
  returned value is represented by the opaque rational stand-in
  `floatApprox`; every claim below depends only on the domain/error
  behaviour of those functions, never on those values.  `math.sqrt`'s legal
  branch is represented by `Rat.sqrt`.
* Python `None` is `Value.null`; Python `bool` is `Value.bool`.  String
  constants (rejected by the validator, unused by every claim) are outside
  the value universe.
* Python dictionaries (`data`, `computed_fields`, `row_computed`, the merged
  evaluation context) are association lists with first-match lookup; an
  entry prepended to the front overrides older entries, matching
  `dict.update` / `dict[k] = v` for the uses the engine makes of them
  (the engine never depends on dict iteration order).
* Expression strings are represented by the AST that CPython's `ast.parse`
  produces for them (the engine walks `ast` nodes directly).  In particular
  `a ^ b` parses to `BinOp(BitXor)` — Python's `^` is bitwise xor, not
  power — and `a ** b` parses to `BinOp(Pow)`; `FOO(1,2)` parses to
  `Call(Name "FOO", [Constant 1, Constant 2])`; chained `0 < x < 1` parses
  to `Compare(Constant 0, [(Lt, Name "x"), (Lt, Constant 1)])`.
* Python exceptions raised inside `_eval_node` are modelled by the
  `Except EvalErr` monad; the `try/except` ladder of `FormulaEngine.evaluate`
  is the total function `renderErr`.
-/

namespace FormulaEngine

/-- Runtime values flowing through `FormulaEngine._eval_node`:
Python `None`, `bool`, and numbers (int/float abstracted to `ℚ`). -/
inductive Value where
  | null : Value
  | bool : Bool → Value
  | num : ℚ → Value
deriving DecidableEq

/-- Python's numeric coercion: `bool` acts as 0/1 in arithmetic and
comparisons (`True + 1 == 2`, `True == 1`).  `Value.null` never reaches the
arithmetic paths (the evaluator returns null / raises first); the 0 returned
for it here is dead code kept only to make the function total. -/
def Value.toNum : Value → ℚ
  | .null => 0
  | .bool b => if b then 1 else 0
  | .num q => q

/-- The Python type name of a value, as it appears in `TypeError` messages. -/
def Value.pyTypeName : Value → String
  | .null => "NoneType"
  | .bool _ => "bool"
  | .num q => if q.den = 1 then "int" else "float"

/-- Python truthiness as used on line 307/312/330 of the engine
(`if not result` / `if result` / `if test`): `None`, `False` and `0` are
falsy, everything else in the value universe is truthy. -/
def truthy : Value → Bool
  | .null => false
  | .bool b => b
  | .num q => decide (q ≠ 0)

/-- Python `==` on the value universe: `None` equals only `None`; numbers
and booleans compare through numeric coercion (`True == 1`). -/
def pyEq : Value → Value → Bool
  | .null, .null => true
  | .null, _ => false
  | _, .null => false
  | a, b => decide (a.toNum = b.toNum)

/-- The Python exceptions that `FormulaEngine.evaluate` (lines 247-254)
catches around `_eval_node`. -/
inductive EvalErr where
  | zeroDivision : EvalErr
  | valueError : String → EvalErr
  | keyError : String → EvalErr
  | typeError : String → EvalErr
deriving DecidableEq

/-- `repr` of a string as it appears in `str(KeyError(k))`. -/
def quoted (s : String) : String := "\x27" ++ s ++ "\x27"

/-- Python `str.upper()` on the ASCII identifiers the engine handles. -/
def pyUpper (s : String) : String := ⟨s.data.map Char.toUpper⟩

/-- Python `str.lower()` on the ASCII identifiers the engine handles. -/
def pyLower (s : String) : String := ⟨s.data.map Char.toLower⟩

/-!
Exact rational arithmetic, written over `Rat.divInt` so that every operation
kernel-reduces on concrete inputs (the Batteries field operations on `ℚ` are
`@[irreducible]`).  The bridging lemmas straight below prove each wrapper
equal to the corresponding Mathlib operation, so theorem statements can use
the standard `+ - * / ^ ⌊⌋` notation. -/

/-- Rational addition, `(an*bd + bn*ad) / (ad*bd)`. -/
def ratAdd (a b : ℚ) : ℚ := Rat.divInt (a.num * b.den + b.num * a.den) (a.den * b.den)

/-- Rational subtraction. -/
def ratSub (a b : ℚ) : ℚ := Rat.divInt (a.num * b.den - b.num * a.den) (a.den * b.den)

/-- Rational multiplication. -/
def ratMul (a b : ℚ) : ℚ := Rat.divInt (a.num * b.num) (a.den * b.den)

/-- Rational division (total, yielding `0` on a zero divisor like Lean's
`/`; the engine's `pyDiv` guard below raises before this case is reached). -/
def ratDiv (a b : ℚ) : ℚ := Rat.divInt (a.num * b.den) (a.den * b.num)

/-- Rational negation. -/
def ratNeg (a : ℚ) : ℚ := Rat.divInt (-a.num) a.den

/-- Rational absolute value. -/
def ratAbs (a : ℚ) : ℚ := if a < 0 then ratNeg a else a

/-- `⌊a⌋` as floor division of numerator by denominator. -/
def ratFloor (a : ℚ) : ℤ := a.num.fdiv a.den

/-- `⌈a⌉ = -⌊-a⌋`. -/
def ratCeil (a : ℚ) : ℤ := -(ratFloor (ratNeg a))

/-- Rational inverse (`0⁻¹ = 0`; the engine guards `0 ** negative` before
reaching it). -/
def ratInv (a : ℚ) : ℚ := Rat.divInt a.den a.num

/-- `a ^ n` for a natural exponent. -/
def ratNatPow (a : ℚ) : ℕ → ℚ
  | 0 => 1
  | n + 1 => ratMul (ratNatPow a n) a

/-- `a ^ n` for an integer exponent. -/
def ratZPow (a : ℚ) : ℤ → ℚ
  | .ofNat n => ratNatPow a n
  | .negSucc n => ratInv (ratNatPow a (n + 1))

/-- `operator.truediv`: Python raises `ZeroDivisionError` on a zero divisor
(for ints and floats alike). -/
def pyDiv (a b : ℚ) : Except EvalErr ℚ :=
  if b = 0 then .error .zeroDivision else .ok (ratDiv a b)

/-- `operator.mod`: Python `a % b` is `a - b*floor(a/b)`, raising
`ZeroDivisionError` on a zero divisor. -/
def pyMod (a b : ℚ) : Except EvalErr ℚ :=
  if b = 0 then .error .zeroDivision
  else .ok (ratSub a (ratMul b ((ratFloor (ratDiv a b) : ℤ) : ℚ)))

/-- Opaque rational stand-in for the float a CPython math operation returns
on its *legal* domain (`math.log x` for `x > 0`, `math.exp`, fractional
powers…).  No claim depends on these values, only on the domain errors,
which are modelled exactly. -/
def floatApprox (_tag : String) (_x : ℚ) : ℚ := 0

/-- `operator.pow` / builtin `pow` on numbers.  Integer exponents are exact;
`0 ** negative` raises `ZeroDivisionError`.  Fractional exponents produce
irrational (or, for negative bases, complex) floats in CPython, abstracted
by `floatApprox`. -/
def pyPow (a b : ℚ) : Except EvalErr Value :=
  if b.den = 1 then
    if a = 0 ∧ b.num < 0 then .error .zeroDivision
    else .ok (.num (ratZPow a b.num))
  else .ok (.num (floatApprox "pow" a))

/-- Binary arithmetic operator tags appearing in `ast.BinOp` nodes.
`SAFE_OPERATORS` (lines 22-42) contains `Add, Sub, Mult, Div, Pow, Mod`;
`bitXor` models `ast.BitXor`, the node CPython parses `a ^ b` to, which is
*not* in `SAFE_OPERATORS`. -/
inductive BOp where
  | add | sub | mul | div | pow | mod | bitXor
deriving DecidableEq

/-- Unary operator tags (`ast.USub`, `ast.UAdd`, `ast.Not`), all present in
`SAFE_OPERATORS`. -/
inductive UOp where
  | neg | pos | not
deriving DecidableEq

/-- Comparison operator tags (`ast.Gt/Lt/GtE/LtE/Eq/NotEq`), all present in
`SAFE_OPERATORS`. -/
inductive CmpOp where
  | gt | lt | ge | le | eq | ne
deriving DecidableEq

/-- `ast.And` / `ast.Or` of an `ast.BoolOp` node. -/
inductive BoolKind where
  | and | or
deriving DecidableEq

/-- Whether a binary operator's AST class is a key of `SAFE_OPERATORS`. -/
def binOpSupported : BOp → Bool
  | .bitXor => false
  | _ => true

/-- `type(node.op).__name__` for the unsupported-operator error message. -/
def bopAstName : BOp → String
  | .add => "Add" | .sub => "Sub" | .mul => "Mult" | .div => "Div"
  | .pow => "Pow" | .mod => "Mod" | .bitXor => "BitXor"

/-- `SAFE_OPERATORS[type(node.op)](left, right)` for a `BinOp` node, called
by `_eval_node` only after both operands were checked non-null.  For
`ast.BitXor` the table lookup itself raises
`KeyError(<class 'ast.BitXor'>)`. -/
def applyBinOp : BOp → Value → Value → Except EvalErr Value
  | .add, a, b => .ok (.num (ratAdd a.toNum b.toNum))
  | .sub, a, b => .ok (.num (ratSub a.toNum b.toNum))
  | .mul, a, b => .ok (.num (ratMul a.toNum b.toNum))
  | .div, a, b =>
      match pyDiv a.toNum b.toNum with
      | .error e => .error e
      | .ok q => .ok (.num q)
  | .pow, a, b => pyPow a.toNum b.toNum
  | .mod, a, b =>
      match pyMod a.toNum b.toNum with
      | .error e => .error e
      | .ok q => .ok (.num q)
  | .bitXor, _, _ => .error (.keyError ("<class " ++ quoted "ast.BitXor" ++ ">"))

/-- `SAFE_OPERATORS[type(node.op)](operand)` for a `UnaryOp` node (operand
already checked non-null): `operator.neg`, `operator.pos`, `operator.not_`. -/
def applyUnOp : UOp → Value → Value
  | .neg, v => .num (ratNeg v.toNum)
  | .pos, v => .num v.toNum
  | .not, v => .bool (!(truthy v))

/-- `SAFE_OPERATORS[type(op)](left, right)` for a comparison op (both sides
already checked non-null by `_eval_node`). -/
def applyCmp : CmpOp → Value → Value → Bool
  | .gt, a, b => decide (a.toNum > b.toNum)
  | .lt, a, b => decide (a.toNum < b.toNum)
  | .ge, a, b => decide (a.toNum ≥ b.toNum)
  | .le, a, b => decide (a.toNum ≤ b.toNum)
  | .eq, a, b => pyEq a b
  | .ne, a, b => !(pyEq a b)

/-- Coerce a list of arguments to numbers; `Option.none` when a `None` is
among them (the Python builtins then raise `TypeError`). -/
def allNums : List Value → Option (List ℚ)
  | [] => some []
  | .null :: _ => Option.none
  | v :: rest => (allNums rest).map (fun l => v.toNum :: l)

/-- `math.sqrt`: `ValueError` on negative input, else the (irrational) root,
abstracted by `Rat.sqrt`. -/
def fnSQRT : List Value → Except EvalErr Value
  | [.null] => .error (.typeError "must be real number, not NoneType")
  | [v] =>
      if v.toNum < 0 then .error (.valueError "math domain error")
      else .ok (.num (Rat.sqrt v.toNum))
  | args => .error (.typeError ("sqrt expected 1 argument, got " ++ toString args.length))

/-- builtin `abs`. -/
def fnABS : List Value → Except EvalErr Value
  | [.null] => .error (.typeError ("bad operand type for abs(): " ++ quoted "NoneType"))
  | [v] => .ok (.num (ratAbs v.toNum))
  | args => .error (.typeError ("abs expected 1 argument, got " ++ toString args.length))

/-- builtin `max` with unpacked scalar arguments: a single non-iterable
argument raises `TypeError`; with two or more arguments it keeps the first
maximal element (replacing only on strict `>`). -/
def fnMAX : List Value → Except EvalErr Value
  | [] => .error (.typeError "max expected at least 1 argument, got 0")
  | [v] => .error (.typeError (quoted v.pyTypeName ++ " object is not iterable"))
  | v :: vs =>
      if (v :: vs).contains .null then
        .error (.typeError ("not supported between instances of " ++ quoted "NoneType"))
      else .ok (vs.foldl (fun acc w => if acc.toNum < w.toNum then w else acc) v)

/-- builtin `min`, mirror of `fnMAX`. -/
def fnMIN : List Value → Except EvalErr Value
  | [] => .error (.typeError "min expected at least 1 argument, got 0")
  | [v] => .error (.typeError (quoted v.pyTypeName ++ " object is not iterable"))
  | v :: vs =>
      if (v :: vs).contains .null then
        .error (.typeError ("not supported between instances of " ++ quoted "NoneType"))
      else .ok (vs.foldl (fun acc w => if w.toNum < acc.toNum then w else acc) v)

/-- `lambda *args: sum(args) / len(args) if args else 0` — here `args` is a
tuple, so `sum` works; empty call returns `0`. -/
def fnAVG : List Value → Except EvalErr Value
  | [] => .ok (.num 0)
  | vs =>
      match allNums vs with
      | Option.none => .error (.typeError ("unsupported operand type(s) for +: " ++ quoted "int" ++ " and " ++ quoted "NoneType"))
      | some qs => .ok (.num (ratDiv (qs.foldl ratAdd 0) (qs.length : ℚ)))

/-- builtin `sum` with unpacked scalar arguments: the first positional
argument must be an iterable, which no value in this engine's universe is,
so every call raises `TypeError` (wrong arity also raises `TypeError`). -/
def fnSUM : List Value → Except EvalErr Value
  | [] => .error (.typeError "sum() takes at least 1 positional argument (0 given)")
  | _ :: _ :: _ :: _ => .error (.typeError "sum() takes at most 2 arguments")
  | v :: _ => .error (.typeError (quoted v.pyTypeName ++ " object is not iterable"))

/-- builtin `pow` with two arguments (the three-argument modular form is for
ints only and is not used by any formula; it is not modelled). -/
def fnPOW : List Value → Except EvalErr Value
  | [a, b] =>
      if a = .null ∨ b = .null then
        .error (.typeError "unsupported operand type(s) for ** or pow()")
      else pyPow a.toNum b.toNum
  | args => .error (.typeError ("pow expected 2 arguments, got " ++ toString args.length))

/-- `math.log` (optional base): `ValueError` outside the positive domain;
base 1 divides by `log(1) = 0`. -/
def fnLOG : List Value → Except EvalErr Value
  | [.null] => .error (.typeError "must be real number, not NoneType")
  | [v] =>
      if v.toNum ≤ 0 then .error (.valueError "math domain error")
      else .ok (.num (floatApprox "log" v.toNum))
  | [v, b] =>
      if v = .null ∨ b = .null then .error (.typeError "must be real number, not NoneType")
      else if v.toNum ≤ 0 ∨ b.toNum ≤ 0 then .error (.valueError "math domain error")
      else if b.toNum = 1 then .error .zeroDivision
      else .ok (.num (floatApprox "logbase" (v.toNum / b.toNum)))
  | args => .error (.typeError ("log expected at most 2 arguments, got " ++ toString args.length))

/-- `math.log10`. -/
def fnLOG10 : List Value → Except EvalErr Value
  | [.null] => .error (.typeError "must be real number, not NoneType")
  | [v] =>
      if v.toNum ≤ 0 then .error (.valueError "math domain error")
      else .ok (.num (floatApprox "log10" v.toNum))
  | args => .error (.typeError ("log10 expected 1 argument, got " ++ toString args.length))

/-- `math.exp` (total on reals). -/
def fnEXP : List Value → Except EvalErr Value
  | [.null] => .error (.typeError "must be real number, not NoneType")
  | [v] => .ok (.num (floatApprox "exp" v.toNum))
  | args => .error (.typeError ("exp expected 1 argument, got " ++ toString args.length))

/-- Python banker's rounding (round half to even), as used by builtin
`round`. -/
def bankerRound (q : ℚ) : ℤ :=
  let f : ℤ := ratFloor q
  let r : ℚ := ratSub q (f : ℚ)
  if r < mkRat 1 2 then f
  else if mkRat 1 2 < r then f + 1
  else if f % 2 = 0 then f else f + 1

/-- builtin `round` (1- or 2-argument form; `ndigits` must be integral).
Exact decimal scaling abstracts the float-representation quirks of CPython's
2-argument `round`. -/
def fnROUND : List Value → Except EvalErr Value
  | [.null] => .error (.typeError "type NoneType doesn\x27t define __round__ method")
  | [v] => .ok (.num (bankerRound v.toNum))
  | [v, n] =>
      if v = .null ∨ n = .null then
        .error (.typeError "type NoneType doesn\x27t define __round__ method")
      else if n.toNum.den ≠ 1 then
        .error (.typeError (quoted "float" ++ " object cannot be interpreted as an integer"))
      else
        let k : ℤ := n.toNum.num
        .ok (.num (ratDiv ((bankerRound (ratMul v.toNum (ratZPow 10 k)) : ℤ) : ℚ) (ratZPow 10 k)))
  | args => .error (.typeError ("round expected at most 2 arguments, got " ++ toString args.length))

/-- `math.floor`. -/
def fnFLOOR : List Value → Except EvalErr Value
  | [.null] => .error (.typeError "must be real number, not NoneType")
  | [v] => .ok (.num ((ratFloor v.toNum : ℤ) : ℚ))
  | args => .error (.typeError ("floor expected 1 argument, got " ++ toString args.length))

/-- `math.ceil`. -/
def fnCEIL : List Value → Except EvalErr Value
  | [.null] => .error (.typeError "must be real number, not NoneType")
  | [v] => .ok (.num ((ratCeil v.toNum : ℤ) : ℚ))
  | args => .error (.typeError ("ceil expected 1 argument, got " ++ toString args.length))

/-- `lambda cond, true_val, false_val: true_val if cond else false_val`. -/
def fnIF : List Value → Except EvalErr Value
  | [c, t, f] => .ok (if truthy c then t else f)
  | args => .error (.typeError ("IF expected 3 arguments, got " ++ toString args.length))

/-- `lambda *args: next((a for a in args if a is not None), None)`. -/
def fnCOALESCE (args : List Value) : Except EvalErr Value :=
  .ok ((args.find? (fun v => v ≠ .null)).getD .null)

/-- `lambda x: x is None`. -/
def fnISNULL : List Value → Except EvalErr Value
  | [v] => .ok (.bool (v = .null))
  | args => .error (.typeError ("ISNULL expected 1 argument, got " ++ toString args.length))

/-- `lambda a, b: None if a == b else a`. -/
def fnNULLIF : List Value → Except EvalErr Value
  | [a, b] => .ok (if pyEq a b then .null else a)
  | args => .error (.typeError ("NULLIF expected 2 arguments, got " ++ toString args.length))

/-- The `SAFE_FUNCTIONS` registry (lines 45-63), keyed by upper-cased
function name; `Option.none` models a name missing from the dict. -/
def SAFE_FUNCTIONS : String → Option (List Value → Except EvalErr Value)
  | "SQRT" => some fnSQRT
  | "ABS" => some fnABS
  | "MAX" => some fnMAX
  | "MIN" => some fnMIN
  | "AVG" => some fnAVG
  | "SUM" => some fnSUM
  | "POW" => some fnPOW
  | "LOG" => some fnLOG
  | "LOG10" => some fnLOG10
  | "EXP" => some fnEXP
  | "ROUND" => some fnROUND
  | "FLOOR" => some fnFLOOR
  | "CEIL" => some fnCEIL
  | "IF" => some fnIF
  | "COALESCE" => some fnCOALESCE
  | "ISNULL" => some fnISNULL
  | "NULLIF" => some fnNULLIF
  | _ => Option.none

/-- The functions that receive raw (possibly-null) arguments
(line 321: `if func_name in ("COALESCE", "IF", "ISNULL")`). -/
def NULL_AWARE_NAMES : List String := ["COALESCE", "IF", "ISNULL"]

/-- The engine's expression AST: exactly the `ast` node shapes that
`_validate_node` / `_eval_node` dispatch on (`Constant`, `Name`, `BinOp`,
`UnaryOp`, `Compare`, `BoolOp`, `Call` with a bare-`Name` callee, `IfExp`). -/
inductive Expr where
  | const : Value → Expr
  | name : String → Expr
  | binop : BOp → Expr → Expr → Expr
  | unop : UOp → Expr → Expr
  | compare : Expr → List (CmpOp × Expr) → Expr
  | boolop : BoolKind → List Expr → Expr
  | call : String → List Expr → Expr
  | ifExp : Expr → Expr → Expr → Expr

/-- First-match lookup in an association-list context (`name in context` /
`context[name]`). -/
def ctxFind : List (String × Value) → String → Option Value
  | [], _ => Option.none
  | (k, v) :: rest, n => if k = n then some v else ctxFind rest n

mutual

/-- `FormulaEngine._eval_node` (lines 256-335).  Returns the value together
with the names this subtree appended to `fields_used`, in append order; an
`.error` models an exception propagating out of the node. -/
def evalNode (ctx : List (String × Value)) : Expr → Except EvalErr (Value × List String)
  | .const v => .ok (v, [])
  | .name id =>
      let n := pyLower id
      match ctxFind ctx n with
      | Option.none => .error (.keyError (quoted n))
      | some v => .ok (v, [n])
  | .binop op l r =>
      match evalNode ctx l with
      | .error e => .error e
      | .ok (lv, fl) =>
        match evalNode ctx r with
        | .error e => .error e
        | .ok (rv, fr) =>
          if lv = .null ∨ rv = .null then .ok (.null, fl ++ fr)
          else
            match applyBinOp op lv rv with
            | .error e => .error e
            | .ok v => .ok (v, fl ++ fr)
  | .unop op e =>
      match evalNode ctx e with
      | .error err => .error err
      | .ok (v, f) => if v = .null then .ok (.null, f) else .ok (applyUnOp op v, f)
  | .compare l rest =>
      match evalNode ctx l with
      | .error e => .error e
      | .ok (lv, fl) =>
        if lv = .null then .ok (.null, fl)
        else
          match evalChain ctx lv rest with
          | .error e => .error e
          | .ok (v, f) => .ok (v, fl ++ f)
  | .boolop .and vals => evalAndList ctx vals
  | .boolop .or vals => evalOrList ctx vals
  | .call fn args =>
      let fname := pyUpper fn
      match SAFE_FUNCTIONS fname with
      | Option.none => .error (.keyError (quoted fname))
      | some impl =>
        match evalArgs ctx args with
        | .error e => .error e
        | .ok (vs, fs) =>
          if fname ∈ NULL_AWARE_NAMES then
            match impl vs with
            | .error e => .error e
            | .ok v => .ok (v, fs)
          else if vs.contains .null then .ok (.null, fs)
          else
            match impl vs with
            | .error e => .error e
            | .ok v => .ok (v, fs)
  | .ifExp t b o =>
      match evalNode ctx t with
      | .error e => .error e
      | .ok (tv, ft) =>
        if truthy tv then
          match evalNode ctx b with
          | .error e => .error e
          | .ok (v, f) => .ok (v, ft ++ f)
        else
          match evalNode ctx o with
          | .error e => .error e
          | .ok (v, f) => .ok (v, ft ++ f)

/-- The comparator loop of the `ast.Compare` case (lines 292-300): evaluate
the next comparator; null makes the whole chain null; a failing link returns
`False` without evaluating the rest; an exhausted chain returns `True`. -/
def evalChain (ctx : List (String × Value)) (left : Value) :
    List (CmpOp × Expr) → Except EvalErr (Value × List String)
  | [] => .ok (.bool true, [])
  | (op, c) :: rest =>
      match evalNode ctx c with
      | .error e => .error e
      | .ok (rv, f) =>
        if rv = .null then .ok (.null, f)
        else if applyCmp op left rv then
          match evalChain ctx rv rest with
          | .error e => .error e
          | .ok (v, f2) => .ok (v, f ++ f2)
        else .ok (.bool false, f)

/-- The `ast.And` loop (lines 303-308): short-circuits to `False` on the
first falsy operand, else `True`. -/
def evalAndList (ctx : List (String × Value)) : List Expr → Except EvalErr (Value × List String)
  | [] => .ok (.bool true, [])
  | e :: rest =>
      match evalNode ctx e with
      | .error err => .error err
      | .ok (v, f) =>
        if truthy v then
          match evalAndList ctx rest with
          | .error err => .error err
          | .ok (v2, f2) => .ok (v2, f ++ f2)
        else .ok (.bool false, f)

/-- The `ast.Or` loop (lines 309-314): short-circuits to `True` on the first
truthy operand, else `False`. -/
def evalOrList (ctx : List (String × Value)) : List Expr → Except EvalErr (Value × List String)
  | [] => .ok (.bool false, [])
  | e :: rest =>
      match evalNode ctx e with
      | .error err => .error err
      | .ok (v, f) =>
        if truthy v then .ok (.bool true, f)
        else
          match evalOrList ctx rest with
          | .error err => .error err
          | .ok (v2, f2) => .ok (v2, f ++ f2)

/-- Argument evaluation of the `ast.Call` case (line 319), left to right. -/
def evalArgs (ctx : List (String × Value)) : List Expr → Except EvalErr (List Value × List String)
  | [] => .ok ([], [])
  | e :: rest =>
      match evalNode ctx e with
      | .error err => .error err
      | .ok (v, f) =>
        match evalArgs ctx rest with
        | .error err => .error err
        | .ok (vs, fs) => .ok (v :: vs, f ++ fs)

end

/-- `FormulaResult` (lines 100-109).  `value = .null` plays the role of
Python's `value=None`; `fields_used` defaults to `[]` via `__post_init__`. -/
structure FormulaResult where
  value : Value
  error : Option String := Option.none
  fields_used : List String := []
deriving DecidableEq

/-- The `except` ladder of `FormulaEngine.evaluate` (lines 247-254), mapping
each caught exception to the error message stored in the result. -/
def renderErr : EvalErr → String
  | .zeroDivision => "Division by zero"
  | .valueError m => "Math error: " ++ m
  | .keyError k => "Missing field: " ++ k
  | .typeError m => "Evaluation error: " ++ m

/-- Lower-case the keys of a dict, as the two comprehensions on
lines 238-240 do. -/
def lowerKeys (l : List (String × Value)) : List (String × Value) :=
  l.map (fun kv => (pyLower kv.1, kv.2))

/-- The context built by `FormulaEngine.evaluate` (lines 238-240): `data`
entries whose value is `None` are dropped, then `computed_fields` entries
are merged on top (overriding `data` entries on key collision — here by
sitting in front of them under first-match lookup). -/
def mkContext (data computed : List (String × Value)) : List (String × Value) :=
  lowerKeys computed ++ lowerKeys (data.filter (fun kv => decide (kv.2 ≠ Value.null)))

/-- `FormulaEngine.evaluate` (lines 220-254) on an already-parsed
expression: build the context, walk the tree, and catch every evaluation
exception into a null-valued result (on which `fields_used` stays at its
dataclass default `[]`). -/
def evaluate (e : Expr) (data computed : List (String × Value)) : FormulaResult :=
  match evalNode (mkContext data computed) e with
  | .ok (v, fs) => { value := v, fields_used := fs }
  | .error err => { value := .null, error := some (renderErr err) }

/-- `ValidationResult` (lines 112-118). -/
structure ValidationResult where
  is_valid : Bool
  errors : List String
  fields_used : List String
  functions_used : List String
deriving DecidableEq

/-- Order-preserving deduplication modelling `list(set(xs))` (lines
161-162).  CPython's set iteration order is unspecified; the claims below
depend only on membership, never on the order of the deduplicated lists. -/
def dedupFirst (l : List String) : List String :=
  l.foldl (fun acc x => if x ∈ acc then acc else acc ++ [x]) []

mutual

/-- `FormulaEngine._validate_node` (lines 165-218): returns the
`(errors, fields, funcs)` the walk appends, in append order.  Constants in
the modelled value universe (numbers, booleans, null) are always accepted;
the validator's read of `self._computed_cache` has no effect because the
engine never writes that dict. -/
def validateNode : Expr → List String × List String × List String
  | .const _ => ([], [], [])
  | .name id => ([], [pyLower id], [])
  | .binop op l r =>
      let e1 := validateNode l
      let e2 := validateNode r
      ((if binOpSupported op then [] else ["Unsupported operator: " ++ bopAstName op])
        ++ e1.1 ++ e2.1, e1.2.1 ++ e2.2.1, e1.2.2 ++ e2.2.2)
  | .unop _ e =>
      -- `USub`, `UAdd`, `Not` are all in `SAFE_OPERATORS`: no operator error.
      validateNode e
  | .compare l pairs =>
      -- all six comparison operators are in `SAFE_OPERATORS`: no operator error.
      let e1 := validateNode l
      let e2 := validateChain pairs
      (e1.1 ++ e2.1, e1.2.1 ++ e2.2.1, e1.2.2 ++ e2.2.2)
  | .boolop _ vals => validateList vals
  | .call fn args =>
      let fname := pyUpper fn
      let err := if (SAFE_FUNCTIONS fname).isSome then [] else ["Unknown function: " ++ fname]
      let e := validateList args
      (err ++ e.1, e.2.1, fname :: e.2.2)
  | .ifExp t b o =>
      let e1 := validateNode t
      let e2 := validateNode b
      let e3 := validateNode o
      (e1.1 ++ e2.1 ++ e3.1, e1.2.1 ++ e2.2.1 ++ e3.2.1, e1.2.2 ++ e2.2.2 ++ e3.2.2)

/-- Comparator validation loop (lines 195-198). -/
def validateChain : List (CmpOp × Expr) → List String × List String × List String
  | [] => ([], [], [])
  | (_, c) :: rest =>
      let e1 := validateNode c
      let e2 := validateChain rest
      (e1.1 ++ e2.1, e1.2.1 ++ e2.2.1, e1.2.2 ++ e2.2.2)

/-- Operand/argument validation loop (lines 200-201 and 208-209). -/
def validateList : List Expr → List String × List String × List String
  | [] => ([], [], [])
  | e :: rest =>
      let e1 := validateNode e
      let e2 := validateList rest
      (e1.1 ++ e2.1, e1.2.1 ++ e2.2.1, e1.2.2 ++ e2.2.2)

end

/-- `FormulaEngine.validate` (lines 142-163) on an already-parsed
expression. -/
def validate (e : Expr) : ValidationResult :=
  let r := validateNode e
  { is_valid := r.1.isEmpty
    errors := r.1
    fields_used := dedupFirst r.2.1
    functions_used := dedupFirst r.2.2 }

/-- One row of the `formula_definitions` query in `compute_all_formulas`
(line 446-448): `(id, name, expression)`, with the expression text already
parsed.  The `ORDER BY category` happens in the database; the orchestrator
receives the list in that order. -/
structure Formula where
  fid : String
  name : String
  expr : Expr

/-- One `fundamentals` row: the key columns `ticker`/`as_of` (strings/dates,
outside the numeric value universe) and the field columns the evaluator
reads. -/
structure Record where
  ticker : String
  as_of : String
  fields : List (String × Value)

/-- One `INSERT INTO computed_metrics` issued by `compute_all_formulas`
(lines 479-487). -/
structure StoredMetric where
  ticker : String
  as_of : String
  metric_name : String
  formula_id : String
  value : Value
deriving DecidableEq

/-- `formula_name.lower().replace(" ", "_")` (line 489): lower-case the name
and replace each space with an underscore. -/
def normalizeName (s : String) : String :=
  ⟨s.data.map (fun c => if c.toLower = ' ' then '_' else c.toLower)⟩

/-- The inner per-record loop of `compute_all_formulas` (lines 474-490):
fold over the formulas in order, evaluating against the record's data plus
the row-local `row_computed` overlay; a non-null result is persisted,
registered under the formula's normalized name (in front, overriding any
older entry of the same key), and counted.  Returns
`(count, inserts in order, final row_computed)`. -/
def runFormulas (ticker as_of : String) (data : List (String × Value)) :
    List Formula → List (String × Value) → Nat × List StoredMetric × List (String × Value)
  | [], rc => (0, [], rc)
  | f :: fs, rc =>
      let r := evaluate f.expr data rc
      if r.value = Value.null then runFormulas ticker as_of data fs rc
      else
        let rest := runFormulas ticker as_of data fs ((normalizeName f.name, r.value) :: rc)
        (rest.1 + 1,
         { ticker := ticker, as_of := as_of, metric_name := f.name,
           formula_id := f.fid, value := r.value } :: rest.2.1,
         rest.2.2)

/-- `compute_all_formulas` (lines 434-492) over the fetched rows: each row
starts from an empty `row_computed`; the count accumulates across rows and
the function returns it (the inserts are exposed for the theorems). -/
def computeAllFormulas (formulas : List Formula) : List Record → Nat × List StoredMetric
  | [] => (0, [])
  | r :: rs =>
      let here := runFormulas r.ticker r.as_of r.fields formulas []
      let rest := computeAllFormulas formulas rs
      (here.1 + rest.1, here.2.1 ++ rest.2)

/-- Concrete batch scenario: a formula computing `eps * 2` and stored under
the display name `"Graham Number"` (normalized field key `graham_number`). -/
def fmlGraham : Formula :=
  { fid := "f1", name := "Graham Number", expr := .binop .mul (.name "eps") (.const (.num 2)) }

/-- Concrete batch scenario: a formula whose expression references the
normalized output name of `fmlGraham`. -/
def fmlMargin : Formula :=
  { fid := "f2", name := "Margin Of Safety",
    expr := .binop .div (.name "graham_number") (.const (.num 4)) }

/-- Concrete batch scenario: a record for which `fmlGraham` evaluates
non-null. -/
def recWithEps : Record :=
  { ticker := "AAPL", as_of := "2024-01-01", fields := [("eps", .num 5)] }

/-- Concrete batch scenario: a record lacking `eps`, for which `fmlGraham`
(and hence `fmlMargin`) fails. -/
def recWithoutEps : Record :=
  { ticker := "MSFT", as_of := "2024-01-01", fields := [("other", .num 1)] }

/-! ### Shared helper lemmas -/

theorem ratAdd_eq (a b : ℚ) : ratAdd a b = a + b := by
  have ha : (a.den : ℚ) ≠ 0 := by exact_mod_cast a.den_nz
  have hb : (b.den : ℚ) ≠ 0 := by exact_mod_cast b.den_nz
  rw [ratAdd, Rat.divInt_eq_div]
  conv_rhs => rw [← Rat.num_div_den a, ← Rat.num_div_den b]
  rw [div_add_div _ _ ha hb]
  push_cast
  ring_nf

theorem ratSub_eq (a b : ℚ) : ratSub a b = a - b := by
  have ha : (a.den : ℚ) ≠ 0 := by exact_mod_cast a.den_nz
  have hb : (b.den : ℚ) ≠ 0 := by exact_mod_cast b.den_nz
  rw [ratSub, Rat.divInt_eq_div]
  conv_rhs => rw [← Rat.num_div_den a, ← Rat.num_div_den b]
  rw [div_sub_div _ _ ha hb]
  push_cast
  ring_nf

theorem ratMul_eq (a b : ℚ) : ratMul a b = a * b := by
  have ha : (a.den : ℚ) ≠ 0 := by exact_mod_cast a.den_nz
  have hb : (b.den : ℚ) ≠ 0 := by exact_mod_cast b.den_nz
  rw [ratMul, Rat.divInt_eq_div]
  conv_rhs => rw [← Rat.num_div_den a, ← Rat.num_div_den b]
  rw [div_mul_div_comm]
  push_cast
  ring_nf

theorem ratNeg_eq (a : ℚ) : ratNeg a = -a := by
  rw [ratNeg, Rat.divInt_eq_div]
  conv_rhs => rw [← Rat.num_div_den a]
  push_cast
  ring_nf

theorem ratDiv_eq (a b : ℚ) : ratDiv a b = a / b := by
  rcases eq_or_ne b 0 with rb | rb
  · subst rb
    show Rat.divInt (a.num * (1 : ℕ)) (a.den * (0 : ℚ).num) = a / 0
    norm_num
  · have ha : (a.den : ℚ) ≠ 0 := by exact_mod_cast a.den_nz
    have hb : (b.den : ℚ) ≠ 0 := by exact_mod_cast b.den_nz
    have hbn : (b.num : ℚ) ≠ 0 := by exact_mod_cast Rat.num_ne_zero.mpr rb
    rw [ratDiv, Rat.divInt_eq_div]
    conv_rhs => rw [← Rat.num_div_den a, ← Rat.num_div_den b]
    push_cast
    field_simp

theorem ratAbs_eq (a : ℚ) : ratAbs a = |a| := by
  rw [ratAbs]
  rcases lt_or_le a 0 with h | h
  · rw [if_pos h, ratNeg_eq, abs_of_neg h]
  · rw [if_neg (not_lt.mpr h), abs_of_nonneg h]

theorem ratFloor_eq (a : ℚ) : ratFloor a = ⌊a⌋ := by
  conv_rhs => rw [← Rat.num_div_den a]
  rw [Rat.floor_intCast_div_natCast, ratFloor, Int.fdiv_eq_ediv _ (by positivity)]

theorem ratCeil_eq (a : ℚ) : ratCeil a = ⌈a⌉ := by
  rw [ratCeil, ratFloor_eq, ratNeg_eq, Int.floor_neg, neg_neg]

theorem ratInv_eq (a : ℚ) : ratInv a = a⁻¹ := by
  rcases eq_or_ne a 0 with ra | ra
  · subst ra
    show Rat.divInt ((1 : ℕ) : ℤ) (0 : ℚ).num = (0 : ℚ)⁻¹
    norm_num
  · have ha : (a.den : ℚ) ≠ 0 := by exact_mod_cast a.den_nz
    have han : (a.num : ℚ) ≠ 0 := by exact_mod_cast Rat.num_ne_zero.mpr ra
    rw [ratInv, Rat.divInt_eq_div]
    conv_rhs => rw [← Rat.num_div_den a]
    rw [inv_div]
    push_cast
    ring_nf

theorem ratNatPow_eq (a : ℚ) (n : ℕ) : ratNatPow a n = a ^ n := by
  induction n with
  | zero => rw [ratNatPow, pow_zero]
  | succ k ih => rw [ratNatPow, ratMul_eq, ih, pow_succ]

theorem ratZPow_eq (a : ℚ) (n : ℤ) : ratZPow a n = a ^ n := by
  cases n with
  | ofNat k => rw [ratZPow, ratNatPow_eq, Int.ofNat_eq_coe, zpow_natCast]
  | negSucc k => rw [ratZPow, ratNatPow_eq, ratInv_eq, zpow_negSucc]

/-- Every message produced by the `except` ladder is non-empty. -/
theorem renderErr_ne_empty (e : EvalErr) : renderErr e ≠ "" := by
  cases e <;> intro h <;>
    · have hd := congrArg String.data h
      simp only [renderErr, String.data_append] at hd
      simp at hd

/-- Evaluating a list of constant arguments yields those constants and
touches no fields. -/
theorem evalArgs_const (ctx : List (String × Value)) (vs : List Value) :
    evalArgs ctx (vs.map Expr.const) = .ok (vs, []) := by
  induction vs with
  | nil => rfl
  | cons v rest ih => simp [evalArgs, evalNode, ih]

/-- The three null-aware function names are fixed points of `pyUpper`. -/
theorem nullAware_pyUpper {fn : String} (h : fn ∈ NULL_AWARE_NAMES) : pyUpper fn = fn := by
  fin_cases h <;> decide

/-- A list of numeric constants contains no null. -/
theorem null_not_mem_mapNum (qs : List ℚ) : Value.null ∉ qs.map Value.num := by
  simp

/-- `evalArgs` on numeric constant arguments in composed-map form. -/
theorem evalArgs_constNum (ctx : List (String × Value)) (qs : List ℚ) :
    evalArgs ctx (qs.map (Expr.const ∘ Value.num)) = .ok (qs.map Value.num, []) := by
  induction qs with
  | nil => rfl
  | cons q rest ih => simp [evalArgs, evalNode, ih]

/-- Within one record, the returned count equals the number of persisted
metrics. -/
theorem runFormulas_count_eq_length (t a : String) (d : List (String × Value))
    (fs : List Formula) (rc : List (String × Value)) :
    (runFormulas t a d fs rc).1 = (runFormulas t a d fs rc).2.1.length := by
  induction fs generalizing rc with
  | nil => rfl
  | cons f rest ih =>
      simp only [runFormulas]
      split
      · exact ih rc
      · simp [ih ((normalizeName f.name, (evaluate f.expr d rc).value) :: rc)]

/-- Within one record, every persisted metric has a non-null value. -/
theorem runFormulas_stored_ne_null (t a : String) (d : List (String × Value))
    (fs : List Formula) (rc : List (String × Value)) :
    ∀ m ∈ (runFormulas t a d fs rc).2.1, m.value ≠ Value.null := by
  induction fs generalizing rc with
  | nil => intro m hm; simp [runFormulas] at hm
  | cons f rest ih =>
      intro m hm
      simp only [runFormulas] at hm
      by_cases hv : (evaluate f.expr d rc).value = Value.null
      · rw [if_pos hv] at hm
        exact ih rc m hm
      · rw [if_neg hv] at hm
        rcases List.mem_cons.mp hm with h | h
        · subst h; exact hv
        · exact ih _ m h

/-! ### Claim theorems -/

/-- C1: for every binary or unary arithmetic operation, if any operand
evaluates (successfully) to null, the operation's result is null — returned
upward without an exception — and this propagates transitively up the tree;
in particular `eps * null_field` with `null_field` present in the context
with a null value (here via the `computed_fields` overlay, the one channel
through which `evaluate` admits null-valued context entries) yields a null
result, as does the larger tree `(eps * null_field) + 1`. -/
theorem C1_null_operand_propagation :
    (∀ (ctx : List (String × Value)) (op : BOp) (l r : Expr) (fl fr : List String) (v : Value),
       evalNode ctx l = .ok (.null, fl) → evalNode ctx r = .ok (v, fr) →
       evalNode ctx (.binop op l r) = .ok (.null, fl ++ fr)) ∧
    (∀ (ctx : List (String × Value)) (op : BOp) (l r : Expr) (fl fr : List String) (v : Value),
       evalNode ctx l = .ok (v, fl) → evalNode ctx r = .ok (.null, fr) →
       evalNode ctx (.binop op l r) = .ok (.null, fl ++ fr)) ∧
    (∀ (ctx : List (String × Value)) (op : UOp) (e : Expr) (f : List String),
       evalNode ctx e = .ok (.null, f) →
       evalNode ctx (.unop op e) = .ok (.null, f)) ∧
    evaluate (.binop .mul (.name "eps") (.name "null_field"))
        [("eps", .num 2)] [("null_field", .null)] =
      { value := .null, error := Option.none, fields_used := ["eps", "null_field"] } ∧
    evaluate (.binop .add (.binop .mul (.name "eps") (.name "null_field")) (.const (.num 1)))
        [("eps", .num 2)] [("null_field", .null)] =
      { value := .null, error := Option.none, fields_used := ["eps", "null_field"] } := by
  refine ⟨?_, ?_, ?_, by decide, by decide⟩
  · intro ctx op l r fl fr v hl hr
    simp [evalNode, hl, hr]
  · intro ctx op l r fl fr v hl hr
    simp [evalNode, hl, hr]
  · intro ctx op e f he
    simp [evalNode, he]

/-- Witness for C1: the hypothesised general parts applied at concrete
inputs. -/
theorem C1_null_operand_propagation_witness :
    evalNode [] (.binop .add (.const .null) (.const (.num 1))) = .ok (.null, []) ∧
    evalNode [] (.binop .add (.const (.num 1)) (.const .null)) = .ok (.null, []) ∧
    evalNode [] (.unop .neg (.const .null)) = .ok (.null, []) :=
  ⟨C1_null_operand_propagation.1 [] .add (.const .null) (.const (.num 1)) [] [] (.num 1) rfl rfl,
   C1_null_operand_propagation.2.1 [] .add (.const (.num 1)) (.const .null) [] [] (.num 1) rfl rfl,
   C1_null_operand_propagation.2.2.1 [] .neg (.const .null) [] rfl⟩

/-- C2 (against the claim, documenting the divergence): CPython parses
`a ^ b` as `BinOp(BitXor)`, and `ast.BitXor` is not in `SAFE_OPERATORS`.
Hence `2 ^ 3` fails validation with an unsupported-operator error and fails
evaluation with the `KeyError`-derived message, while `2 ** 3`
(`BinOp(Pow)`) validates and evaluates to the power, which is exact for
every natural exponent. -/
theorem C2_caret_is_bitxor_not_power :
    validate (.binop .bitXor (.const (.num 2)) (.const (.num 3))) =
      { is_valid := false, errors := ["Unsupported operator: BitXor"],
        fields_used := [], functions_used := [] } ∧
    evaluate (.binop .bitXor (.const (.num 2)) (.const (.num 3))) [] [] =
      { value := .null, error := some ("Missing field: <class " ++ quoted "ast.BitXor" ++ ">"),
        fields_used := [] } ∧
    (∀ (a : ℚ) (n : ℕ),
       evaluate (.binop .pow (.const (.num a)) (.const (.num n))) [] [] =
         { value := .num (a ^ n), error := Option.none, fields_used := [] }) ∧
    (validate (.binop .pow (.const (.num 2)) (.const (.num 3)))).is_valid = true := by
  refine ⟨by decide, by decide, ?_, by decide⟩
  intro a n
  have hden : ((n : ℚ)).den = 1 := Rat.den_natCast n
  have hnum : ((n : ℚ)).num = (n : ℤ) := Rat.num_natCast n
  have hnonneg : ¬((n : ℤ) < 0) := not_lt.mpr (Int.natCast_nonneg n)
  simp [evaluate, evalNode, applyBinOp, pyPow, Value.toNum, hden, hnum, hnonneg,
    ratZPow_eq, zpow_natCast, mkContext, lowerKeys]

/-- C3: division by a zero divisor and math-domain violations (negative
square root, logarithm of a non-positive number) are caught by `evaluate`
and surface as a null value with a non-empty message — in general, every
internal evaluation error surfaces this way, so no exception escapes. -/
theorem C3_zero_and_domain_errors :
    (∀ (e : Expr) (data comp : List (String × Value)) (m : String),
       (evaluate e data comp).error = some m →
       (evaluate e data comp).value = .null ∧ m ≠ "") ∧
    (∀ (l r : Expr) (data comp : List (String × Value)) (a : ℚ) (fl fr : List String),
       evalNode (mkContext data comp) l = .ok (.num a, fl) →
       evalNode (mkContext data comp) r = .ok (.num 0, fr) →
       evaluate (.binop .div l r) data comp =
         { value := .null, error := some "Division by zero", fields_used := [] }) ∧
    (∀ (arg : Expr) (data comp : List (String × Value)) (x : ℚ) (f : List String),
       evalNode (mkContext data comp) arg = .ok (.num x, f) → x < 0 →
       evaluate (.call "SQRT" [arg]) data comp =
         { value := .null, error := some "Math error: math domain error", fields_used := [] }) ∧
    (∀ (arg : Expr) (data comp : List (String × Value)) (x : ℚ) (f : List String),
       evalNode (mkContext data comp) arg = .ok (.num x, f) → x ≤ 0 →
       evaluate (.call "LOG" [arg]) data comp =
         { value := .null, error := some "Math error: math domain error", fields_used := [] }) ∧
    evaluate (.binop .div (.const (.num 1)) (.const (.num 0))) [] [] =
      { value := .null, error := some "Division by zero", fields_used := [] } ∧
    evaluate (.call "SQRT" [.const (.num (-1))]) [] [] =
      { value := .null, error := some "Math error: math domain error", fields_used := [] } ∧
    evaluate (.call "LOG" [.const (.num 0)]) [] [] =
      { value := .null, error := some "Math error: math domain error", fields_used := [] } := by
  refine ⟨?_, ?_, ?_, ?_, by decide, by decide, by decide⟩
  · intro e data comp m h
    unfold evaluate at h ⊢
    cases hev : evalNode (mkContext data comp) e with
    | ok p =>
        obtain ⟨v, fs⟩ := p
        rw [hev] at h
        exact absurd (h : Option.none = some m) (by simp)
    | error err =>
        rw [hev] at h
        have h2 : some (renderErr err) = some m := h
        injection h2 with h3
        exact ⟨rfl, h3 ▸ renderErr_ne_empty err⟩
  · intro l r data comp a fl fr hl hr
    have hnode : evalNode (mkContext data comp) (.binop .div l r) = .error .zeroDivision := by
      simp [evalNode, hl, hr, applyBinOp, pyDiv, Value.toNum]
    unfold evaluate
    rw [hnode]
    rfl
  · intro arg data comp x f harg hx
    have hup : pyUpper "SQRT" = "SQRT" := by decide
    have hnode : evalNode (mkContext data comp) (.call "SQRT" [arg]) =
        .error (.valueError "math domain error") := by
      simp [evalNode, evalArgs, harg, hup, SAFE_FUNCTIONS, NULL_AWARE_NAMES,
        fnSQRT, Value.toNum, hx]
    unfold evaluate
    rw [hnode]
    decide
  · intro arg data comp x f harg hx
    have hup : pyUpper "LOG" = "LOG" := by decide
    have hnode : evalNode (mkContext data comp) (.call "LOG" [arg]) =
        .error (.valueError "math domain error") := by
      simp [evalNode, evalArgs, harg, hup, SAFE_FUNCTIONS, NULL_AWARE_NAMES,
        fnLOG, Value.toNum, hx]
    unfold evaluate
    rw [hnode]
    decide

/-- Witness for C3: each hypothesised part applied at a concrete input. -/
theorem C3_zero_and_domain_errors_witness :
    ((evaluate (.binop .div (.const (.num 1)) (.const (.num 0))) [] []).value = .null ∧
       "Division by zero" ≠ "") ∧
    evaluate (.binop .div (.const (.num 1)) (.const (.num 0))) [] [] =
      { value := .null, error := some "Division by zero", fields_used := [] } ∧
    evaluate (.call "SQRT" [.const (.num (-1))]) [] [] =
      { value := .null, error := some "Math error: math domain error", fields_used := [] } ∧
    evaluate (.call "LOG" [.const (.num 0)]) [] [] =
      { value := .null, error := some "Math error: math domain error", fields_used := [] } :=
  ⟨C3_zero_and_domain_errors.1 (.binop .div (.const (.num 1)) (.const (.num 0))) [] []
      "Division by zero" (by decide),
   C3_zero_and_domain_errors.2.1 (.const (.num 1)) (.const (.num 0)) [] [] 1 [] [] rfl rfl,
   C3_zero_and_domain_errors.2.2.1 (.const (.num (-1))) [] [] (-1) [] rfl (by decide),
   C3_zero_and_domain_errors.2.2.2.1 (.const (.num 0)) [] [] 0 [] rfl (by decide)⟩

/-- C5: the chained comparison `0 < x < 1` is true exactly when `x` lies
strictly between 0 and 1 (true at `x = 1/2`, false at `x = 3/2`); a null on
any evaluated side makes the whole chain null; and a failing link returns
`false` immediately — subsequent comparators are not evaluated (below, the
unresolvable `boom` reference after a failed or null link causes no
missing-field error). -/
theorem C5_chained_comparison :
    (∀ v : ℚ,
       evaluate (.compare (.const (.num 0)) [(.lt, .name "x"), (.lt, .const (.num 1))])
           [("x", .num v)] [] =
         { value := .bool (decide (0 < v ∧ v < 1)), error := Option.none,
           fields_used := ["x"] }) ∧
    evaluate (.compare (.const (.num 0)) [(.lt, .name "x"), (.lt, .const (.num 1))])
        [("x", .num (mkRat 1 2))] [] =
      { value := .bool true, error := Option.none, fields_used := ["x"] } ∧
    evaluate (.compare (.const (.num 0)) [(.lt, .name "x"), (.lt, .const (.num 1))])
        [("x", .num (mkRat 3 2))] [] =
      { value := .bool false, error := Option.none, fields_used := ["x"] } ∧
    (∀ (ctx : List (String × Value)) (l : Expr) (rest : List (CmpOp × Expr)) (fl : List String),
       evalNode ctx l = .ok (.null, fl) →
       evalNode ctx (.compare l rest) = .ok (.null, fl)) ∧
    (∀ (ctx : List (String × Value)) (left : Value) (op : CmpOp) (c : Expr)
        (rest : List (CmpOp × Expr)) (f : List String),
       evalNode ctx c = .ok (.null, f) →
       evalChain ctx left ((op, c) :: rest) = .ok (.null, f)) ∧
    evaluate (.compare (.const (.num 2)) [(.lt, .const (.num 1)), (.lt, .name "boom")]) [] [] =
      { value := .bool false, error := Option.none, fields_used := [] } ∧
    evaluate (.compare (.const (.num 0)) [(.lt, .name "nullv"), (.lt, .name "boom")])
        [] [("nullv", .null)] =
      { value := .null, error := Option.none, fields_used := ["nullv"] } := by
  refine ⟨?_, by decide, by decide, ?_, ?_, by decide, by decide⟩
  · intro v
    have hx : pyLower "x" = "x" := by decide
    by_cases h1 : (0 : ℚ) < v <;> by_cases h2 : v < 1 <;>
      simp [evaluate, evalNode, evalChain, mkContext, lowerKeys, ctxFind, applyCmp,
        Value.toNum, hx, h1, h2, List.filter]
  · intro ctx l rest fl h
    simp [evalNode, h]
  · intro ctx left op c rest f h
    simp [evalChain, h]

/-- Witness for C5: the hypothesised null-propagation parts applied at
concrete inputs. -/
theorem C5_chained_comparison_witness :
    evalNode [] (.compare (.const .null) [(.lt, .const (.num 1))]) = .ok (.null, []) ∧
    evalChain [] (.num 0) [(.lt, .const .null)] = .ok (.null, []) :=
  ⟨C5_chained_comparison.2.2.2.1 [] (.const .null) [(.lt, .const (.num 1))] [] rfl,
   C5_chained_comparison.2.2.2.2.1 [] (.num 0) .lt (.const .null) [] [] rfl⟩

/-- C6: `COALESCE`, `IF` and `ISNULL` receive their raw arguments including
nulls (line 321 passes them straight to the implementation), and the four
spec examples evaluate accordingly. -/
theorem C6_null_aware_functions :
    evaluate (.call "COALESCE" [.const .null, .const .null, .const (.num 5)]) [] [] =
      { value := .num 5, error := Option.none, fields_used := [] } ∧
    evaluate (.call "ISNULL" [.const .null]) [] [] =
      { value := .bool true, error := Option.none, fields_used := [] } ∧
    evaluate (.call "IF" [.const (.bool true), .const (.num 1), .const (.num 2)]) [] [] =
      { value := .num 1, error := Option.none, fields_used := [] } ∧
    evaluate (.call "IF" [.const (.bool false), .const (.num 1), .const (.num 2)]) [] [] =
      { value := .num 2, error := Option.none, fields_used := [] } ∧
    (∀ (fn : String) (impl : List Value → Except EvalErr Value) (vs : List Value)
        (ctx : List (String × Value)),
       fn ∈ NULL_AWARE_NAMES → SAFE_FUNCTIONS fn = some impl →
       evalNode ctx (.call fn (vs.map Expr.const)) =
         match impl vs with
         | .error e => .error e
         | .ok v => .ok (v, [])) := by
  refine ⟨by decide, by decide, by decide, by decide, ?_⟩
  intro fn impl vs ctx hmem himpl
  have hup := nullAware_pyUpper hmem
  simp only [evalNode, hup, himpl, evalArgs_const, hmem, if_true]

/-- Witness for C6: the raw-argument rule applied to `COALESCE` on an
argument list that contains a null. -/
theorem C6_null_aware_functions_witness :
    evalNode [] (.call "COALESCE" ([Value.null, Value.num 7].map Expr.const)) =
      .ok (.num 7, []) := by
  rw [C6_null_aware_functions.2.2.2.2 "COALESCE" fnCOALESCE [Value.null, Value.num 7] []
    (by decide) rfl]
  rfl

/-- C8: evaluation is a deterministic function of the expression and the
context — equal inputs give equal results (value, error and fields alike). -/
theorem C8_evaluate_deterministic (e e2 : Expr) (data data2 comp comp2 : List (String × Value))
    (he : e = e2) (hd : data = data2) (hc : comp = comp2) :
    evaluate e data comp = evaluate e2 data2 comp2 := by
  subst he; subst hd; subst hc; rfl

/-- Witness for C8 at a concrete expression and context. -/
theorem C8_evaluate_deterministic_witness :
    evaluate (.binop .mul (.name "eps") (.const (.num 2))) [("eps", .num 5)] [] =
      evaluate (.binop .mul (.name "eps") (.const (.num 2))) [("eps", .num 5)] [] :=
  C8_evaluate_deterministic (.binop .mul (.name "eps") (.const (.num 2)))
    (.binop .mul (.name "eps") (.const (.num 2)))
    [("eps", .num 5)] [("eps", .num 5)] [] [] rfl rfl rfl

/-- C7: validating `FOO(1,2)` (i.e. `Call(Name "FOO", [1, 2])`) reports
invalid, an unknown-function error, `functionsUsed = ["FOO"]` and
`fieldsUsed = []`. -/
theorem C7_unknown_function_validation :
    validate (.call "FOO" [.const (.num 1), .const (.num 2)]) =
      { is_valid := false, errors := ["Unknown function: FOO"],
        fields_used := [], functions_used := ["FOO"] } := by
  decide

/-- C4: batch computation processes records independently (splitting the
row list splits the result), returns exactly the number of persisted
metrics, persists only non-null values, and — in the concrete scenario —
a later formula (`Margin Of Safety`) reads an earlier formula's value
under its normalized name (`graham_number`) for the same record only:
the `eps`-less record gets nothing although the other record computed
`Graham Number`, and listing the dependent formula first deprives it of
the synthetic field (missing-field failure, no value stored for it). -/
theorem C4_batch_computation :
    (∀ (fs : List Formula) (rows rows2 : List Record),
       computeAllFormulas fs (rows ++ rows2) =
         ((computeAllFormulas fs rows).1 + (computeAllFormulas fs rows2).1,
          (computeAllFormulas fs rows).2 ++ (computeAllFormulas fs rows2).2)) ∧
    (∀ (fs : List Formula) (rows : List Record),
       (computeAllFormulas fs rows).1 = (computeAllFormulas fs rows).2.length) ∧
    (∀ (fs : List Formula) (rows : List Record),
       ∀ m ∈ (computeAllFormulas fs rows).2, m.value ≠ Value.null) ∧
    computeAllFormulas [fmlGraham, fmlMargin] [recWithEps, recWithoutEps] =
      (2, [{ ticker := "AAPL", as_of := "2024-01-01", metric_name := "Graham Number",
             formula_id := "f1", value := .num 10 },
           { ticker := "AAPL", as_of := "2024-01-01", metric_name := "Margin Of Safety",
             formula_id := "f2", value := .num (mkRat 10 4) }]) ∧
    computeAllFormulas [fmlMargin, fmlGraham] [recWithEps] =
      (1, [{ ticker := "AAPL", as_of := "2024-01-01", metric_name := "Graham Number",
             formula_id := "f1", value := .num 10 }]) := by
  refine ⟨?_, ?_, ?_, by decide, by decide⟩
  · intro fs rows rows2
    induction rows with
    | nil => simp [computeAllFormulas]
    | cons r rs ih => simp [computeAllFormulas, ih]; omega
  · intro fs rows
    induction rows with
    | nil => rfl
    | cons r rs ih =>
        simp [computeAllFormulas, ih, ← runFormulas_count_eq_length]
  · intro fs rows
    induction rows with
    | nil => intro m hm; simp [computeAllFormulas] at hm
    | cons r rs ih =>
        intro m hm
        simp only [computeAllFormulas, List.mem_append] at hm
        rcases hm with h | h
        · exact runFormulas_stored_ne_null _ _ _ _ _ m h
        · exact ih m h

/-- Witness for C4: the persisted-values-are-non-null part applied to a
concrete batch run whose stored list contains the `Graham Number` metric. -/
theorem C4_batch_computation_witness :
    ({ ticker := "AAPL", as_of := "2024-01-01", metric_name := "Graham Number",
       formula_id := "f1", value := .num 10 } : StoredMetric).value ≠ Value.null :=
  C4_batch_computation.2.2.1 [fmlGraham] [recWithEps]
    { ticker := "AAPL", as_of := "2024-01-01", metric_name := "Graham Number",
      formula_id := "f1", value := .num 10 } (by decide)

/-- C9: `evaluate` drops null-valued entries of the `data` mapping before
evaluation, so a data field that is present with a null value behaves
exactly like an absent one (a missing-field error on the evaluated path);
`computed_fields` entries are not filtered — a null computed entry is
visible in the context — and a computed entry overrides a data entry of
the same name. -/
theorem C9_null_data_entries_filtered :
    (∀ (e : Expr) (data comp : List (String × Value)),
       evaluate e data comp =
         evaluate e (data.filter (fun kv => decide (kv.2 ≠ Value.null))) comp) ∧
    evaluate (.binop .mul (.name "eps") (.name "null_field"))
        [("eps", .num 2), ("null_field", .null)] [] =
      { value := .null, error := some ("Missing field: " ++ quoted "null_field"),
        fields_used := [] } ∧
    evaluate (.name "f") [] [("f", .null)] =
      { value := .null, error := Option.none, fields_used := ["f"] } ∧
    evaluate (.name "f") [("f", .num 1)] [("f", .num 2)] =
      { value := .num 2, error := Option.none, fields_used := ["f"] } := by
  refine ⟨?_, by decide, by decide, by decide⟩
  intro e data comp
  have hctx : mkContext (data.filter (fun kv => decide (kv.2 ≠ Value.null))) comp =
      mkContext data comp := by
    rw [mkContext, mkContext, List.filter_filter]
    simp
  unfold evaluate
  rw [hctx]

/-- C10: calling the registry function `SUM` with two or more non-null
numeric arguments yields a null value with a generic evaluation error
(Python's `sum` requires an iterable first argument), not the arithmetic
sum; likewise `MAX`/`MIN` on a single numeric argument. -/
theorem C10_sum_max_min_iterable_errors :
    (∀ (a b : ℚ) (rest : List ℚ), ∃ m : String,
       evaluate (.call "SUM" (((a :: b :: rest).map Value.num).map Expr.const)) [] [] =
         { value := .null, error := some ("Evaluation error: " ++ m), fields_used := [] }) ∧
    evaluate (.call "SUM" [.const (.num 1), .const (.num 2)]) [] [] =
      { value := .null,
        error := some ("Evaluation error: " ++ quoted "int" ++ " object is not iterable"),
        fields_used := [] } ∧
    (∀ a : ℚ, ∃ m : String,
       evaluate (.call "MAX" [.const (.num a)]) [] [] =
         { value := .null, error := some ("Evaluation error: " ++ m), fields_used := [] }) ∧
    (∀ a : ℚ, ∃ m : String,
       evaluate (.call "MIN" [.const (.num a)]) [] [] =
         { value := .null, error := some ("Evaluation error: " ++ m), fields_used := [] }) ∧
    evaluate (.call "MAX" [.const (.num 5)]) [] [] =
      { value := .null,
        error := some ("Evaluation error: " ++ quoted "int" ++ " object is not iterable"),
        fields_used := [] } := by
  have hsum : pyUpper "SUM" = "SUM" := by decide
  have hmax : pyUpper "MAX" = "MAX" := by decide
  have hmin : pyUpper "MIN" = "MIN" := by decide
  refine ⟨?_, by decide, ?_, ?_, by decide⟩
  · intro a b rest
    cases rest with
    | nil =>
        refine ⟨quoted (Value.num a).pyTypeName ++ " object is not iterable", ?_⟩
        simp [evaluate, evalNode, evalArgs, hsum, SAFE_FUNCTIONS, NULL_AWARE_NAMES,
          fnSUM, renderErr, mkContext, lowerKeys]
    | cons c cs =>
        refine ⟨"sum() takes at most 2 arguments", ?_⟩
        simp [evaluate, evalNode, evalArgs, evalArgs_constNum, hsum, SAFE_FUNCTIONS,
          NULL_AWARE_NAMES, fnSUM, null_not_mem_mapNum, renderErr, mkContext, lowerKeys]
  · intro a
    refine ⟨quoted (Value.num a).pyTypeName ++ " object is not iterable", ?_⟩
    simp [evaluate, evalNode, evalArgs, hmax, SAFE_FUNCTIONS, NULL_AWARE_NAMES,
      fnMAX, renderErr, mkContext, lowerKeys]
  · intro a
    refine ⟨quoted (Value.num a).pyTypeName ++ " object is not iterable", ?_⟩
    simp [evaluate, evalNode, evalArgs, hmin, SAFE_FUNCTIONS, NULL_AWARE_NAMES,
      fnMIN, renderErr, mkContext, lowerKeys]

end FormulaEngine
